import Mathlib

/-
Shallow embedding of the interactive login flow of the dcos-cli
(pkg/login/flow.go). External collaborators (flag resolution, provider
catalog fetch, terminal prompts, browser opener, HTTP URL building, JWT
signing, the login endpoint) are modelled as an explicit environment of
oracle functions; the flow itself is translated statement by statement.
Side effects are recorded in an explicit event trace; the mutable
Flow.interactive field is threaded as explicit state.
-/

namespace DcosLogin

/-- Client methods of a login provider, the four dispatch cases of
Flow.triggerMethod in flow.go. -/
inductive ClientMethod where
  | credential
  | userCredential
  | serviceCredential
  | browserToken
deriving DecidableEq, Repr

/-- Provider configuration: the start_flow_url field. -/
structure ProviderConfig where
  startFlowURL : String
deriving DecidableEq, Repr

/-- A login provider entry of the catalog (fields ID, Type, ClientMethod,
Config in the Go source; Type is rendered here as ptype). -/
structure Provider where
  id : String
  ptype : String
  clientMethod : ClientMethod
  config : ProviderConfig
deriving DecidableEq, Repr

/-- Modelled from the spec: the Provider Catalog (type Providers with its
Slice method is repository code not present under src/). The spec describes
the catalog as a mapping from provider ID to Provider that is also viewable
as an ordered sequence for deterministic iteration; it is embedded directly
as that ordered sequence, with IDs unique within a catalog, so the map
lookup is a search for the unique entry with a given ID. -/
def lookupProvider (providers : List Provider) (pid : String) : Option Provider :=
  providers.find? (fun p => p.id == pid)

/-- The Credentials accumulator (fields UID, Password, Token); Go zero
values are empty strings. -/
structure Credentials where
  uid : String := ""
  password : String := ""
  token : String := ""
deriving DecidableEq, Repr

/-- Resolved command-line flags as read by flow.go: providerID, username,
password, and the compatibility predicate Flags.Supports (a collaborator
supplied by the flags object; its internals are external to flow.go). -/
structure Flags where
  providerID : String
  username : String
  password : String
  supports : Provider → Bool

/-- The mutable state of a Flow that the orchestrator updates: the
interactive flag (Flow.interactive in the Go source, zero value false). -/
structure FlowState where
  interactive : Bool
deriving DecidableEq, Repr

/-- Claim values of the service JWT payload. -/
inductive ClaimValue where
  | str (s : String)
  | int (n : Nat)
deriving DecidableEq, Repr

/-- A JWT before signing: the signing algorithm name and the claims map. -/
structure UnsignedToken where
  alg : String
  claims : List (String × ClaimValue)
deriving DecidableEq, Repr

/-- Observable side effects of a flow execution, in order of occurrence. -/
inductive Event where
  | logInfo (msg : String)
  | logError (msg : String)
  | promptSelectEv (options : List Provider)
  | promptInputEv (attempt : Nat) (msg : String)
  | promptPasswordEv (attempt : Nat) (msg : String)
  | browserOpenEv (url : String)
  | erroutEv (msg : String)
  | loginCallEv (attempt : Nat) (endpoint : String) (creds : Credentials)
deriving DecidableEq, Repr

/-- The external collaborators of a Flow, as response oracles. Prompt and
login oracles take the current attempt number so they may answer
differently on each call, like their stateful real counterparts. -/
structure Env where
  resolveFlags : Except String Unit
  fetchProviders : Except String (List Provider)
  promptSelect : List Provider → Except String Nat
  promptInput : Nat → String → String
  promptPassword : Nat → String → String
  openerOpen : String → Option String
  buildURL : String → Except String String
  sign : UnsignedToken → Except String String
  now : Nat → Nat
  login : Nat → String → Credentials → Except String String

/-- Nanoseconds per second, the unit conversion of the Go time package. -/
def nanosPerSecond : Nat := 1000000000

/-- One minute as a Go time.Duration in nanoseconds. -/
def minuteNs : Nat := 60 * nanosPerSecond

/-- Go Time.Unix: a wall-clock instant in nanoseconds since the epoch,
converted to whole seconds. -/
def goUnix (tNs : Nat) : Nat := tNs / nanosPerSecond

/-- Go Time.Add: advance an instant by a duration in nanoseconds. -/
def goAdd (tNs d : Nat) : Nat := tNs + d

/-- The unsigned service token built by Flow.serviceToken: signing method
RS256 and claims uid and exp, where exp is now plus 5 minutes in unix
seconds. -/
def serviceTokenUnsigned (uid : String) (nowNs : Nat) : UnsignedToken :=
  { alg := "RS256"
  , claims := [("uid", ClaimValue.str uid)
             , ("exp", ClaimValue.int (goUnix (goAdd nowNs (5 * minuteNs))))] }

/-- Flow.uid: the UID from the username flag, or an interactive prompt. -/
def flowUID (flags : Flags) (env : Env) (attempt : Nat) (st : FlowState) :
    String × FlowState × List Event :=
  if flags.username ≠ "" then
    (flags.username, st, [])
  else
    (env.promptInput attempt "Username: ", { interactive := true },
     [Event.promptInputEv attempt "Username: "])

/-- Flow.password: the password from the resolved flag, or a masked
interactive prompt. -/
def flowPassword (flags : Flags) (env : Env) (attempt : Nat) (st : FlowState) :
    String × FlowState × List Event :=
  if flags.password ≠ "" then
    (flags.password, st, [])
  else
    (env.promptPassword attempt "Password: ", { interactive := true },
     [Event.promptPasswordEv attempt "Password: "])

/-- The fallback message Flow.openBrowser prints to errout, with the URL
substituted for the format verb. -/
def fallbackMsg (url : String) : String :=
  "If your browser didn\x27t open, please follow this link:\n\n    " ++ url ++ "\n\n"

/-- Go strings.HasPrefix, evaluated on the character lists of the two
strings. -/
def goStartsWith (s pre : String) : Bool := pre.data.isPrefixOf s.data

/-- The URL resolution step of Flow.openBrowser: a root-relative start flow
URL is resolved against the cluster base URL through the HTTP client
request builder; any other URL is kept as is. -/
def resolveStartFlowURL (env : Env) (u : String) : Except String String :=
  if goStartsWith u "/" then env.buildURL u else Except.ok u

/-- Flow.openBrowser: resolve the start flow URL, ask the opener to open
it (logging, not propagating, an opener failure), then always print the
fallback message with the resolved URL to errout. -/
def openBrowser (env : Env) (startFlowURL : String) :
    Except String Unit × List Event :=
  match resolveStartFlowURL env startFlowURL with
  | Except.error e => (Except.error e, [])
  | Except.ok url =>
      let openEvs :=
        match env.openerOpen url with
        | some e => [Event.browserOpenEv url, Event.logError e]
        | none => [Event.browserOpenEv url]
      (Except.ok (), openEvs ++ [Event.erroutEv (fallbackMsg url)])

/-- The informational message logged for a provider excluded by the
compatibility predicate. -/
def excludeMsg (p : Provider) : String :=
  "Excluding provider \x27" ++ p.id ++ "\x27 based on command-line flags."

/-- The candidate-extraction loop of Flow.selectProvider: keep the
providers the flags support, logging each exclusion in iteration order. -/
def filterCandidates (flags : Flags) : List Provider → List Provider × List Event
  | [] => ([], [])
  | p :: ps =>
      let rest := filterCandidates flags ps
      if flags.supports p then (p :: rest.1, rest.2)
      else (rest.1, Event.logInfo (excludeMsg p) :: rest.2)

/-- The error for an explicit provider ID absent from the catalog. -/
def unknownProviderMsg (pid : String) : String :=
  "unknown login provider ID \x27" ++ pid ++ "\x27"

/-- The error for a catalog left without any compatible candidate. -/
def noProviderMsg : String := "couldn\x27t determine a login provider"

/-- Flow.selectProvider: explicit selection by provider ID flag, otherwise
implicit selection of a sole candidate, otherwise manual selection through
the prompt collaborator. The Go source never assigns Flow.interactive in
this function, so the state passes through unchanged on every path;
indexing the candidates out of range is a Go panic, rendered as an error. -/
def selectProvider (flags : Flags) (env : Env) (providers : List Provider)
    (st : FlowState) : Except String Provider × FlowState × List Event :=
  if flags.providerID ≠ "" then
    match lookupProvider providers flags.providerID with
    | some provider => (Except.ok provider, st, [])
    | none => (Except.error (unknownProviderMsg flags.providerID), st, [])
  else
    let candidates := (filterCandidates flags providers).1
    let evs := (filterCandidates flags providers).2
    match candidates with
    | [] => (Except.error noProviderMsg, st, evs)
    | [p] => (Except.ok p, st, evs)
    | _ :: _ :: _ =>
        match env.promptSelect candidates with
        | Except.error e =>
            (Except.error e, st, evs ++ [Event.promptSelectEv candidates])
        | Except.ok i =>
            match candidates[i]? with
            | some p => (Except.ok p, st, evs ++ [Event.promptSelectEv candidates])
            | none => (Except.error "panic: index out of range", st,
                       evs ++ [Event.promptSelectEv candidates])

/-- The token prompt message of the browser-token method. -/
def browserTokenPromptMsg : String := "Enter token from the browser: "

/-- One iteration of the method dispatch inside Flow.triggerMethod: given
the attempt number, the current state, the credentials accumulator and the
current login endpoint, produce either an early-return error or the updated
endpoint and credentials, together with the updated state and the events of
the iteration. -/
def dispatchMethod (flags : Flags) (env : Env) (provider : Provider)
    (attempt : Nat) (st : FlowState) (creds : Credentials) (endpoint : String) :
    Except String (String × Credentials) × FlowState × List Event :=
  match provider.clientMethod with
  | ClientMethod.credential | ClientMethod.userCredential =>
      let r1 := flowUID flags env attempt st
      let r2 := flowPassword flags env attempt r1.2.1
      (Except.ok (provider.config.startFlowURL,
                  { creds with uid := r1.1, password := r2.1 }),
       r2.2.1, r1.2.2 ++ r2.2.2)
  | ClientMethod.serviceCredential =>
      let r1 := flowUID flags env attempt st
      match env.sign (serviceTokenUnsigned r1.1 (env.now attempt)) with
      | Except.error e => (Except.error e, r1.2.1, r1.2.2)
      | Except.ok tok =>
          (Except.ok (endpoint, { creds with uid := r1.1, token := tok }),
           r1.2.1, r1.2.2)
  | ClientMethod.browserToken =>
      if attempt = 1 then
        match openBrowser env provider.config.startFlowURL with
        | (Except.error e, evs1) => (Except.error e, st, evs1)
        | (Except.ok _, evs1) =>
            (Except.ok (endpoint,
                        { creds with token := env.promptInput attempt browserTokenPromptMsg }),
             { interactive := true },
             evs1 ++ [Event.promptInputEv attempt browserTokenPromptMsg])
      else
        (Except.ok (endpoint,
                    { creds with token := env.promptInput attempt browserTokenPromptMsg }),
         { interactive := true },
         [Event.promptInputEv attempt browserTokenPromptMsg])

/-- The retry loop of Flow.triggerMethod from a given attempt number:
run the method dispatch, submit the credentials to the login endpoint, and
return on success, on a non-interactive state, or once the attempt counter
has reached 3; otherwise loop with the next attempt number. -/
def triggerFrom (flags : Flags) (env : Env) (provider : Provider)
    (attempt : Nat) (st : FlowState) (creds : Credentials) (endpoint : String) :
    Except String String × FlowState × List Event :=
  match dispatchMethod flags env provider attempt st creds endpoint with
  | (Except.error e, st1, evs) => (Except.error e, st1, evs)
  | (Except.ok (endpoint2, creds2), st1, evs) =>
      let evs2 := evs ++ [Event.loginCallEv attempt endpoint2 creds2]
      match env.login attempt endpoint2 creds2 with
      | Except.ok tok => (Except.ok tok, st1, evs2)
      | Except.error e =>
          if _h : st1.interactive = false ∨ 3 ≤ attempt then
            (Except.error e, st1, evs2)
          else
            let next := triggerFrom flags env provider (attempt + 1) st1 creds2 endpoint2
            (next.1, next.2.1, evs2 ++ next.2.2)
termination_by 3 - attempt
decreasing_by simp_wf; omega

/-- Flow.triggerMethod: the retry loop started at attempt 1 with a fresh
credentials accumulator and the zero-value login endpoint. -/
def triggerMethod (flags : Flags) (env : Env) (provider : Provider)
    (st : FlowState) : Except String String × FlowState × List Event :=
  triggerFrom flags env provider 1 st
    { uid := "", password := "", token := "" } ""

/-- The informational message logged after provider selection. -/
def usingProviderMsg (p : Provider) : String :=
  "Using login provider \x27" ++ p.ptype ++ "\x27."

/-- Flow.Start: resolve the flags, fetch the provider catalog, select a
provider and trigger its client method; any failure before the method
dispatch aborts the flow. -/
def start (flags : Flags) (env : Env) :
    Except String String × FlowState × List Event :=
  let st0 : FlowState := { interactive := false }
  match env.resolveFlags with
  | Except.error e => (Except.error e, st0, [])
  | Except.ok _ =>
      match env.fetchProviders with
      | Except.error e => (Except.error e, st0, [])
      | Except.ok providers =>
          match selectProvider flags env providers st0 with
          | (Except.error e, st1, evs) => (Except.error e, st1, evs)
          | (Except.ok provider, st1, evs) =>
              let r := triggerMethod flags env provider st1
              (r.1, r.2.1,
               evs ++ [Event.logInfo (usingProviderMsg provider)] ++ r.2.2)

/-- Recognizer for login submission events. -/
def isLoginCall : Event → Bool
  | Event.loginCallEv _ _ _ => true
  | _ => false

/-- Number of login submissions recorded in a trace. -/
def loginCount (t : List Event) : Nat := (t.filter isLoginCall).length

/-- Recognizer for browser-open events. -/
def isBrowserOpen : Event → Bool
  | Event.browserOpenEv _ => true
  | _ => false

/-- Number of browser-open calls recorded in a trace. -/
def browserOpenCount (t : List Event) : Nat := (t.filter isBrowserOpen).length

/-- Recognizer for the browser-token paste prompt. -/
def isTokenPrompt : Event → Bool
  | Event.promptInputEv _ msg => msg == browserTokenPromptMsg
  | _ => false

/-- Number of browser-token paste prompts recorded in a trace. -/
def tokenPromptCount (t : List Event) : Nat := (t.filter isTokenPrompt).length

/-- A credential-method provider, as served by a DC/OS cluster. -/
def provCred : Provider :=
  { id := "dcos-users"
  , ptype := "Log in using a standard DC/OS user account (username and password)"
  , clientMethod := ClientMethod.credential
  , config := { startFlowURL := "/acs/api/v1/auth/login" } }

/-- A browser-token provider with a root-relative start flow URL. -/
def provBrowser : Provider :=
  { id := "dcos-oidc-auth0"
  , ptype := "Log in using OpenID Connect"
  , clientMethod := ClientMethod.browserToken
  , config := { startFlowURL := "/login" } }

/-- A service-credential provider. -/
def provService : Provider :=
  { id := "dcos-services"
  , ptype := "Log in using a service account"
  , clientMethod := ClientMethod.serviceCredential
  , config := { startFlowURL := "" } }

/-- A two-entry catalog. -/
def exCatalog : List Provider := [provCred, provBrowser]

/-- Flags with no static values: every credential value is prompted. -/
def flagsEmpty : Flags :=
  { providerID := "", username := "", password := "", supports := fun _ => true }

/-- Fully flag-driven flags: username and password given on the command
line, no provider ID. -/
def flagsStatic : Flags :=
  { providerID := "", username := "admin", password := "pw", supports := fun _ => true }

/-- Flags naming a provider ID that is incompatible with the flags
themselves: the compatibility predicate rejects every provider. -/
def flagsBadID : Flags :=
  { providerID := "dcos-oidc-auth0", username := "", password := ""
  , supports := fun _ => false }

/-- Flags rejecting every provider, with no explicit provider ID. -/
def flagsNoneCompat : Flags :=
  { providerID := "", username := "", password := "", supports := fun _ => false }

/-- A baseline environment: prompts answer fixed strings, the opener
succeeds, relative URLs resolve against a fixed cluster base address, and
the login endpoint rejects every submission. -/
def baseEnv : Env :=
  { resolveFlags := Except.ok ()
  , fetchProviders := Except.ok exCatalog
  , promptSelect := fun _ => Except.ok 0
  , promptInput := fun _ _ => "typed-input"
  , promptPassword := fun _ _ => "typed-password"
  , openerOpen := fun _ => none
  , buildURL := fun u => Except.ok ("https://dcos.example.com" ++ u)
  , sign := fun _ => Except.ok "signed-token"
  , now := fun _ => 1500000000000000000
  , login := fun _ _ _ => Except.error "invalid credentials" }

/-- The baseline environment with an opener that fails to spawn a
browser. -/
def envOpenFail : Env :=
  { baseEnv with openerOpen := fun _ => some "exec: no browser found" }

/- ------------------------------------------------------------------ -/
/- Helper lemmas                                                       -/
/- ------------------------------------------------------------------ -/

theorem loginCount_append (s t : List Event) :
    loginCount (s ++ t) = loginCount s + loginCount t := by
  simp [loginCount, List.filter_append]

theorem loginCount_flowUID (flags : Flags) (env : Env) (a : Nat) (st : FlowState) :
    loginCount (flowUID flags env a st).2.2 = 0 := by
  unfold flowUID
  split <;> simp [loginCount, isLoginCall]

theorem loginCount_flowPassword (flags : Flags) (env : Env) (a : Nat) (st : FlowState) :
    loginCount (flowPassword flags env a st).2.2 = 0 := by
  unfold flowPassword
  split <;> simp [loginCount, isLoginCall]

theorem loginCount_openBrowser (env : Env) (u : String) :
    loginCount (openBrowser env u).2 = 0 := by
  unfold openBrowser
  cases hres : resolveStartFlowURL env u with
  | error e => simp [loginCount]
  | ok url =>
      cases ho : env.openerOpen url <;> simp [ho, loginCount, isLoginCall]

theorem loginCount_dispatch (flags : Flags) (env : Env) (provider : Provider)
    (a : Nat) (st : FlowState) (creds : Credentials) (ep : String) :
    loginCount (dispatchMethod flags env provider a st creds ep).2.2 = 0 := by
  obtain ⟨pid, pt, cm, cfg⟩ := provider
  cases cm with
  | credential =>
      simp [dispatchMethod, loginCount_append, loginCount_flowUID, loginCount_flowPassword]
  | userCredential =>
      simp [dispatchMethod, loginCount_append, loginCount_flowUID, loginCount_flowPassword]
  | serviceCredential =>
      simp only [dispatchMethod]
      rcases hs : env.sign (serviceTokenUnsigned (flowUID flags env a st).1 (env.now a))
        with e | tok <;>
        simp [hs, loginCount_flowUID]
  | browserToken =>
      simp only [dispatchMethod]
      by_cases h1 : a = 1
      · rw [if_pos h1]
        rcases hob : openBrowser env cfg.startFlowURL with ⟨res, evs⟩
        have h0 : loginCount evs = 0 := by
          have h := loginCount_openBrowser env cfg.startFlowURL
          rw [hob] at h
          exact h
        cases res with
        | error e =>
            exact h0
        | ok x =>
            show loginCount (evs ++ [Event.promptInputEv a browserTokenPromptMsg]) = 0
            rw [loginCount_append, h0]
            simp [loginCount, isLoginCall]
      · rw [if_neg h1]
        simp [loginCount, isLoginCall]

theorem loginCount_filterCandidates (flags : Flags) (ps : List Provider) :
    loginCount (filterCandidates flags ps).2 = 0 := by
  induction ps with
  | nil => simp [filterCandidates, loginCount]
  | cons p ps ih =>
      unfold filterCandidates
      split <;> simpa [loginCount, isLoginCall] using ih

theorem trigger_step_ret (flags : Flags) (env : Env) (provider : Provider)
    (a : Nat) (st st1 : FlowState) (creds c2 : Credentials) (ep ep2 : String)
    (evs : List Event) (m : String)
    (hd : dispatchMethod flags env provider a st creds ep =
          (Except.ok (ep2, c2), st1, evs))
    (hl : env.login a ep2 c2 = Except.error m)
    (hstop : st1.interactive = false ∨ 3 ≤ a) :
    triggerFrom flags env provider a st creds ep =
      (Except.error m, st1, evs ++ [Event.loginCallEv a ep2 c2]) := by
  rw [triggerFrom, hd]
  simp only [hl]
  rw [dif_pos hstop]

theorem trigger_step_loop (flags : Flags) (env : Env) (provider : Provider)
    (a : Nat) (st st1 : FlowState) (creds c2 : Credentials) (ep ep2 : String)
    (evs : List Event) (m : String)
    (hd : dispatchMethod flags env provider a st creds ep =
          (Except.ok (ep2, c2), st1, evs))
    (hl : env.login a ep2 c2 = Except.error m)
    (hi : st1.interactive = true) (ha : a < 3) :
    triggerFrom flags env provider a st creds ep =
      ((triggerFrom flags env provider (a + 1) st1 c2 ep2).1,
       (triggerFrom flags env provider (a + 1) st1 c2 ep2).2.1,
       (evs ++ [Event.loginCallEv a ep2 c2]) ++
         (triggerFrom flags env provider (a + 1) st1 c2 ep2).2.2) := by
  rw [triggerFrom, hd]
  simp only [hl]
  rw [dif_neg]
  intro hcon
  rcases hcon with h | h
  · rw [hi] at h
    cases h
  · omega

theorem trigger_has_login (flags : Flags) (env : Env) (provider : Provider)
    (a : Nat) (st st1 : FlowState) (creds c2 : Credentials) (ep ep2 : String)
    (evs : List Event)
    (hd : dispatchMethod flags env provider a st creds ep =
          (Except.ok (ep2, c2), st1, evs)) :
    1 ≤ loginCount (triggerFrom flags env provider a st creds ep).2.2 := by
  rw [triggerFrom, hd]
  cases hl : env.login a ep2 c2 with
  | ok tok =>
      simp only [hl]
      simp [loginCount_append, loginCount, isLoginCall]
  | error e =>
      simp only [hl]
      split
      · simp [loginCount_append, loginCount, isLoginCall]
      · simp [loginCount_append, loginCount, isLoginCall]
        omega

theorem dispatch_browser_first (flags : Flags) (env : Env) (provider : Provider)
    (st : FlowState) (creds : Credentials) (ep r : String)
    (hm : provider.clientMethod = ClientMethod.browserToken)
    (hres : resolveStartFlowURL env provider.config.startFlowURL = Except.ok r) :
    dispatchMethod flags env provider 1 st creds ep =
      (Except.ok (ep, { creds with token := env.promptInput 1 browserTokenPromptMsg }),
       { interactive := true },
       ((match env.openerOpen r with
          | some e => [Event.browserOpenEv r, Event.logError e]
          | none => [Event.browserOpenEv r]) ++ [Event.erroutEv (fallbackMsg r)]) ++
        [Event.promptInputEv 1 browserTokenPromptMsg]) := by
  simp only [dispatchMethod, hm, if_pos, openBrowser, hres]

theorem dispatch_browser_later (flags : Flags) (env : Env) (provider : Provider)
    (a : Nat) (st : FlowState) (creds : Credentials) (ep : String)
    (hm : provider.clientMethod = ClientMethod.browserToken) (ha : a ≠ 1) :
    dispatchMethod flags env provider a st creds ep =
      (Except.ok (ep, { creds with token := env.promptInput a browserTokenPromptMsg }),
       { interactive := true },
       [Event.promptInputEv a browserTokenPromptMsg]) := by
  simp only [dispatchMethod, hm]
  rw [if_neg ha]

theorem trigger_rejecting_three (flags : Flags) (env : Env) (provider : Provider)
    (st : FlowState) (creds : Credentials) (ep : String)
    (hdisp : ∀ a s c e, ∃ r, (dispatchMethod flags env provider a s c e).1 = Except.ok r)
    (hint : ∀ a s c e, (dispatchMethod flags env provider a s c e).2.1.interactive = true)
    (hrej : ∀ a e c, ∃ m, env.login a e c = Except.error m) :
    loginCount (triggerFrom flags env provider 1 st creds ep).2.2 = 3 ∧
    ∃ ep3 c3 m, env.login 3 ep3 c3 = Except.error m ∧
      Event.loginCallEv 3 ep3 c3 ∈ (triggerFrom flags env provider 1 st creds ep).2.2 ∧
      (triggerFrom flags env provider 1 st creds ep).1 = Except.error m := by
  rcases hdm1 : dispatchMethod flags env provider 1 st creds ep with ⟨r1, st1, evs1⟩
  obtain ⟨⟨ep1, c1⟩, hr1⟩ := hdisp 1 st creds ep
  rw [hdm1] at hr1
  have hr1x : r1 = Except.ok (ep1, c1) := hr1
  subst hr1x
  have hi1p := hint 1 st creds ep
  rw [hdm1] at hi1p
  have hi1 : st1.interactive = true := hi1p
  obtain ⟨m1, hl1⟩ := hrej 1 ep1 c1
  have hstep1 := trigger_step_loop flags env provider 1 st st1 creds c1 ep ep1 evs1 m1
    hdm1 hl1 hi1 (by omega)
  rcases hdm2 : dispatchMethod flags env provider 2 st1 c1 ep1 with ⟨r2, st2, evs2⟩
  obtain ⟨⟨ep2, c2⟩, hr2⟩ := hdisp 2 st1 c1 ep1
  rw [hdm2] at hr2
  have hr2x : r2 = Except.ok (ep2, c2) := hr2
  subst hr2x
  have hi2p := hint 2 st1 c1 ep1
  rw [hdm2] at hi2p
  have hi2 : st2.interactive = true := hi2p
  obtain ⟨m2, hl2⟩ := hrej 2 ep2 c2
  have hstep2 := trigger_step_loop flags env provider 2 st1 st2 c1 c2 ep1 ep2 evs2 m2
    hdm2 hl2 hi2 (by omega)
  rcases hdm3 : dispatchMethod flags env provider 3 st2 c2 ep2 with ⟨r3, st3, evs3⟩
  obtain ⟨⟨ep3, c3⟩, hr3⟩ := hdisp 3 st2 c2 ep2
  rw [hdm3] at hr3
  have hr3x : r3 = Except.ok (ep3, c3) := hr3
  subst hr3x
  obtain ⟨m3, hl3⟩ := hrej 3 ep3 c3
  have hstep3 := trigger_step_ret flags env provider 3 st2 st3 c2 c3 ep2 ep3 evs3 m3
    hdm3 hl3 (Or.inr (by omega))
  have e1 : loginCount evs1 = 0 := by
    have h := loginCount_dispatch flags env provider 1 st creds ep
    rw [hdm1] at h
    exact h
  have e2 : loginCount evs2 = 0 := by
    have h := loginCount_dispatch flags env provider 2 st1 c1 ep1
    rw [hdm2] at h
    exact h
  have e3 : loginCount evs3 = 0 := by
    have h := loginCount_dispatch flags env provider 3 st2 c2 ep2
    rw [hdm3] at h
    exact h
  rw [hstep1, hstep2, hstep3]
  refine ⟨?_, ep3, c3, m3, hl3, ?_, rfl⟩
  · simp only [loginCount_append, e1, e2, e3]
    simp [loginCount, isLoginCall]
  · simp [List.mem_append]

/- ------------------------------------------------------------------ -/
/- Claim theorems                                                      -/
/- ------------------------------------------------------------------ -/

/-- C1 counterexample: with no provider-ID flag, a two-candidate catalog
and a prompt collaborator answering index 0, selection goes through the
manual-selection prompt (the prompt event is the whole trace and its
answer picks the provider), yet the resulting interactivity flag is false,
not true: selectProvider in the source never assigns the interactive
field. -/
theorem C1_manual_selection_counterexample :
    (selectProvider flagsStatic baseEnv exCatalog { interactive := false }).2.2 =
      [Event.promptSelectEv exCatalog] ∧
    (selectProvider flagsStatic baseEnv exCatalog { interactive := false }).1 =
      Except.ok provCred ∧
    ((selectProvider flagsStatic baseEnv exCatalog
        { interactive := false }).2.1.interactive = true → False) :=
  ⟨rfl, rfl, fun h => Bool.noConfusion h⟩

/-- C1 (amended): when provider selection falls through to manual
selection (no provider-ID flag and more than one compatible candidate),
the index returned by the prompt collaborator selects the final provider,
but the selection leaves the interactivity flag unchanged; it does not set
it to true. -/
theorem C1_manual_selection_amended (flags : Flags) (env : Env)
    (providers : List Provider) (st : FlowState)
    (hpid : flags.providerID = "")
    (p q : Provider) (rest : List Provider)
    (hc : (filterCandidates flags providers).1 = p :: q :: rest) :
    (selectProvider flags env providers st).2.1 = st ∧
    (∀ i prov, env.promptSelect (p :: q :: rest) = Except.ok i →
        (p :: q :: rest)[i]? = some prov →
        (selectProvider flags env providers st).1 = Except.ok prov) := by
  simp only [selectProvider]
  rw [if_neg (by simp [hpid]), hc]
  constructor
  · rcases hps : env.promptSelect (p :: q :: rest) with e | i
    · simp [hps]
    · rcases hg : (p :: q :: rest)[i]? with _ | prov <;> simp [hps, hg]
  · intro i prov hps hg
    simp [hps, hg]

/-- C1 (amended) at a concrete input: static flags without a provider ID,
a two-provider catalog and a prompt answering index 0. -/
theorem C1_manual_selection_amended_witness :
    (selectProvider flagsStatic baseEnv exCatalog { interactive := false }).2.1 =
      { interactive := false } ∧
    (∀ i prov, baseEnv.promptSelect (provCred :: provBrowser :: []) = Except.ok i →
        (provCred :: provBrowser :: [])[i]? = some prov →
        (selectProvider flagsStatic baseEnv exCatalog { interactive := false }).1 =
          Except.ok prov) :=
  C1_manual_selection_amended flagsStatic baseEnv exCatalog
    { interactive := false } rfl provCred provBrowser [] rfl

/-- C5: a non-empty provider-ID flag selects the catalog entry with that
ID directly, with no compatibility filtering and no events, for any
compatibility predicate; an ID absent from the catalog fails with the
unknown-provider error, whose text contains the requested ID. -/
theorem C5_explicit_provider_selection (flags : Flags) (env : Env)
    (providers : List Provider) (st : FlowState)
    (hpid : flags.providerID ≠ "") :
    (∀ p, lookupProvider providers flags.providerID = some p →
        selectProvider flags env providers st = (Except.ok p, st, [])) ∧
    (lookupProvider providers flags.providerID = none →
        selectProvider flags env providers st =
          (Except.error (unknownProviderMsg flags.providerID), st, [])) ∧
    (∃ s t, unknownProviderMsg flags.providerID = s ++ flags.providerID ++ t) := by
  refine ⟨?_, ?_, "unknown login provider ID \x27", "\x27", rfl⟩
  · intro p hp
    simp only [selectProvider]
    rw [if_pos hpid, hp]
  · intro hp
    simp only [selectProvider]
    rw [if_pos hpid, hp]

/-- C5 at a concrete input: the explicitly requested browser provider is
returned although the compatibility predicate of the flags rejects every
provider. -/
theorem C5_explicit_provider_selection_witness :
    selectProvider flagsBadID baseEnv exCatalog { interactive := false } =
      (Except.ok provBrowser, { interactive := false }, []) ∧
    flagsBadID.supports provBrowser = false :=
  ⟨(C5_explicit_provider_selection flagsBadID baseEnv exCatalog
      { interactive := false } (by decide)).1 provBrowser rfl, rfl⟩

/-- C6: for any UID and issuance instant, the token built by
Flow.serviceToken is signed with method RS256 and its claims are exactly
a uid claim holding the UID and an exp claim holding the issuance wall
clock in unix seconds plus 300 seconds. -/
theorem C6_service_token_claims (uid : String) (nowNs : Nat) :
    serviceTokenUnsigned uid nowNs =
      { alg := "RS256"
      , claims := [("uid", ClaimValue.str uid),
                   ("exp", ClaimValue.int (goUnix nowNs + 300))] } := by
  have h : goUnix (goAdd nowNs (5 * minuteNs)) = goUnix nowNs + 300 := by
    unfold goUnix goAdd minuteNs nanosPerSecond
    omega
  simp only [serviceTokenUnsigned, h]

/-- C7: with no provider-ID flag and a catalog whose candidate filtering
leaves nothing, Flow.Start fails with the no-provider error and its whole
trace contains no login submission. -/
theorem C7_no_candidates_fatal (flags : Flags) (env : Env)
    (providers : List Provider)
    (hresolve : env.resolveFlags = Except.ok ())
    (hfetch : env.fetchProviders = Except.ok providers)
    (hpid : flags.providerID = "")
    (hzero : (filterCandidates flags providers).1 = []) :
    (start flags env).1 = Except.error noProviderMsg ∧
    loginCount (start flags env).2.2 = 0 := by
  have hsel : selectProvider flags env providers { interactive := false } =
      (Except.error noProviderMsg, { interactive := false },
       (filterCandidates flags providers).2) := by
    simp only [selectProvider]
    rw [if_neg (by simp [hpid]), hzero]
  constructor
  · simp [start, hresolve, hfetch, hsel]
  · simp only [start, hresolve, hfetch, hsel]
    exact loginCount_filterCandidates flags providers

/-- C7 at a concrete input: flags whose compatibility predicate rejects
both catalog providers. -/
theorem C7_no_candidates_fatal_witness :
    (start flagsNoneCompat baseEnv).1 = Except.error noProviderMsg ∧
    loginCount (start flagsNoneCompat baseEnv).2.2 = 0 :=
  C7_no_candidates_fatal flagsNoneCompat baseEnv exCatalog rfl rfl rfl rfl

/-- C9: whenever the URL resolution step of Flow.openBrowser yields a URL,
a root-relative start flow URL was resolved through the transport URL
builder and any other URL passed through unchanged, and the resolved URL
is the one opened first and printed in the fallback message; no other URL
is opened or printed. -/
theorem C9_url_resolution (env : Env) (u r : String)
    (hres : resolveStartFlowURL env u = Except.ok r) :
    (goStartsWith u "/" = false → r = u) ∧
    (goStartsWith u "/" = true → env.buildURL u = Except.ok r) ∧
    (openBrowser env u).2.head? = some (Event.browserOpenEv r) ∧
    Event.erroutEv (fallbackMsg r) ∈ (openBrowser env u).2 ∧
    (∀ v, Event.browserOpenEv v ∈ (openBrowser env u).2 → v = r) ∧
    (∀ m, Event.erroutEv m ∈ (openBrowser env u).2 → m = fallbackMsg r) := by
  refine ⟨?_, ?_, ?_, ?_, ?_, ?_⟩
  · intro hs
    unfold resolveStartFlowURL at hres
    rw [if_neg (by simp [hs])] at hres
    cases hres
    rfl
  · intro hs
    unfold resolveStartFlowURL at hres
    rwa [if_pos hs] at hres
  · simp only [openBrowser, hres]
    rcases ho : env.openerOpen r with _ | e <;> simp [ho]
  · simp only [openBrowser, hres]
    rcases ho : env.openerOpen r with _ | e <;> simp [ho]
  · intro v hv
    simp only [openBrowser, hres] at hv
    rcases ho : env.openerOpen r with _ | e <;>
      · rw [ho] at hv
        simp at hv
        tauto
  · intro m hm
    simp only [openBrowser, hres] at hm
    rcases ho : env.openerOpen r with _ | e <;>
      · rw [ho] at hm
        simp at hm
        tauto

/-- C9 at a concrete input: a root-relative URL resolved against the
cluster base address. -/
theorem C9_url_resolution_witness :
    (goStartsWith "/login" "/" = false → "https://dcos.example.com/login" = "/login") ∧
    (goStartsWith "/login" "/" = true →
        baseEnv.buildURL "/login" = Except.ok "https://dcos.example.com/login") ∧
    (openBrowser baseEnv "/login").2.head? =
      some (Event.browserOpenEv "https://dcos.example.com/login") ∧
    Event.erroutEv (fallbackMsg "https://dcos.example.com/login") ∈
      (openBrowser baseEnv "/login").2 ∧
    (∀ v, Event.browserOpenEv v ∈ (openBrowser baseEnv "/login").2 →
        v = "https://dcos.example.com/login") ∧
    (∀ m, Event.erroutEv m ∈ (openBrowser baseEnv "/login").2 →
        m = fallbackMsg "https://dcos.example.com/login") :=
  C9_url_resolution baseEnv "/login" "https://dcos.example.com/login" rfl

/-- C2: in a browser-token flow whose URL resolution succeeds, a failure
of the opener collaborator never aborts the flow: openBrowser still
returns success, the opener error is logged, the fallback message with the
resolved URL is printed to errout whether or not the browser opened, and
the flow always goes on to submit a login request. -/
theorem C2_browser_open_best_effort (flags : Flags) (env : Env)
    (provider : Provider) (st : FlowState) (creds : Credentials) (ep r : String)
    (hm : provider.clientMethod = ClientMethod.browserToken)
    (hres : resolveStartFlowURL env provider.config.startFlowURL = Except.ok r) :
    (openBrowser env provider.config.startFlowURL).1 = Except.ok () ∧
    Event.erroutEv (fallbackMsg r) ∈ (openBrowser env provider.config.startFlowURL).2 ∧
    (∀ e, env.openerOpen r = some e →
        Event.logError e ∈ (openBrowser env provider.config.startFlowURL).2) ∧
    1 ≤ loginCount (triggerFrom flags env provider 1 st creds ep).2.2 := by
  refine ⟨?_, ?_, ?_, ?_⟩
  · simp [openBrowser, hres]
  · simp only [openBrowser, hres]
    rcases ho : env.openerOpen r with _ | e <;> simp [ho]
  · intro e he
    simp only [openBrowser, hres]
    simp [he]
  · exact trigger_has_login flags env provider 1 st _ creds _ ep _ _
      (dispatch_browser_first flags env provider st creds ep r hm hres)

/-- C2 at a concrete input: the opener fails to spawn a browser, yet the
fallback message is printed, the error only logged, and a login request is
still submitted. -/
theorem C2_browser_open_best_effort_witness :
    (openBrowser envOpenFail provBrowser.config.startFlowURL).1 = Except.ok () ∧
    Event.erroutEv (fallbackMsg "https://dcos.example.com/login") ∈
      (openBrowser envOpenFail provBrowser.config.startFlowURL).2 ∧
    (∀ e, envOpenFail.openerOpen "https://dcos.example.com/login" = some e →
        Event.logError e ∈ (openBrowser envOpenFail provBrowser.config.startFlowURL).2) ∧
    1 ≤ loginCount (triggerFrom flagsEmpty envOpenFail provBrowser 1
          { interactive := false } { uid := "", password := "", token := "" } "").2.2 :=
  C2_browser_open_best_effort flagsEmpty envOpenFail provBrowser
    { interactive := false } { uid := "", password := "", token := "" } ""
    "https://dcos.example.com/login" rfl rfl

/-- C3: for a flow that is interactive on every attempt (each method
dispatch succeeds and leaves the interactivity flag true) against a login
endpoint that rejects every submission, the orchestrator makes exactly 3
login attempts and returns the failure of the third. -/
theorem C3_interactive_three_attempts (flags : Flags) (env : Env)
    (provider : Provider) (st : FlowState) (creds : Credentials) (ep : String)
    (hdisp : ∀ a s c e, ∃ r, (dispatchMethod flags env provider a s c e).1 = Except.ok r)
    (hint : ∀ a s c e, (dispatchMethod flags env provider a s c e).2.1.interactive = true)
    (hrej : ∀ a e c, ∃ m, env.login a e c = Except.error m) :
    loginCount (triggerFrom flags env provider 1 st creds ep).2.2 = 3 ∧
    ∃ ep3 c3 m, env.login 3 ep3 c3 = Except.error m ∧
      Event.loginCallEv 3 ep3 c3 ∈ (triggerFrom flags env provider 1 st creds ep).2.2 ∧
      (triggerFrom flags env provider 1 st creds ep).1 = Except.error m :=
  trigger_rejecting_three flags env provider st creds ep hdisp hint hrej

/-- C3 at a concrete input: a credential provider with empty username and
password flags, so both values are prompted on every attempt, against the
always-rejecting endpoint. -/
theorem C3_interactive_three_attempts_witness :
    loginCount (triggerFrom flagsEmpty baseEnv provCred 1 { interactive := false }
      { uid := "", password := "", token := "" } "").2.2 = 3 ∧
    ∃ ep3 c3 m, baseEnv.login 3 ep3 c3 = Except.error m ∧
      Event.loginCallEv 3 ep3 c3 ∈ (triggerFrom flagsEmpty baseEnv provCred 1
        { interactive := false } { uid := "", password := "", token := "" } "").2.2 ∧
      (triggerFrom flagsEmpty baseEnv provCred 1 { interactive := false }
        { uid := "", password := "", token := "" } "").1 = Except.error m :=
  C3_interactive_three_attempts flagsEmpty baseEnv provCred { interactive := false }
    { uid := "", password := "", token := "" } ""
    (fun _ _ _ _ => ⟨_, rfl⟩) (fun _ _ _ _ => rfl)
    (fun _ _ _ => ⟨"invalid credentials", rfl⟩)

/-- C4: a fully flag-driven flow, whose interactivity flag starts false
and is not set by the method dispatch of attempt 1, submits exactly one
login request to a rejecting endpoint and returns that failure
immediately. -/
theorem C4_noninteractive_single_attempt (flags : Flags) (env : Env)
    (provider : Provider) (st : FlowState) (creds c2 : Credentials)
    (ep ep2 m : String)
    (_hstart : st.interactive = false)
    (hd : (dispatchMethod flags env provider 1 st creds ep).1 = Except.ok (ep2, c2))
    (hni : (dispatchMethod flags env provider 1 st creds ep).2.1.interactive = false)
    (hrej : env.login 1 ep2 c2 = Except.error m) :
    (triggerFrom flags env provider 1 st creds ep).1 = Except.error m ∧
    loginCount (triggerFrom flags env provider 1 st creds ep).2.2 = 1 := by
  rcases hdm : dispatchMethod flags env provider 1 st creds ep with ⟨r1, st1, evs1⟩
  rw [hdm] at hd hni
  have hdx : r1 = Except.ok (ep2, c2) := hd
  subst hdx
  have hnix : st1.interactive = false := hni
  have hstep := trigger_step_ret flags env provider 1 st st1 creds c2 ep ep2 evs1 m
    hdm hrej (Or.inl hnix)
  have e1 : loginCount evs1 = 0 := by
    have h := loginCount_dispatch flags env provider 1 st creds ep
    rw [hdm] at h
    exact h
  rw [hstep]
  refine ⟨rfl, ?_⟩
  rw [loginCount_append, e1]
  simp [loginCount, isLoginCall]

/-- C4 at a concrete input: username and password both given as flags, a
credential provider, and the rejecting endpoint: one attempt, immediate
failure. -/
theorem C4_noninteractive_single_attempt_witness :
    (triggerFrom flagsStatic baseEnv provCred 1 { interactive := false }
      { uid := "", password := "", token := "" } "").1 =
      Except.error "invalid credentials" ∧
    loginCount (triggerFrom flagsStatic baseEnv provCred 1 { interactive := false }
      { uid := "", password := "", token := "" } "").2.2 = 1 :=
  C4_noninteractive_single_attempt flagsStatic baseEnv provCred
    { interactive := false } { uid := "", password := "", token := "" }
    { uid := "admin", password := "pw", token := "" }
    "" "/acs/api/v1/auth/login" "invalid credentials" rfl rfl rfl rfl

/-- C8: in a browser-token flow against an always-rejecting endpoint, the
trace of the whole execution opens the browser exactly once, as its very
first effect, at the resolved start flow URL of attempt 1, while the token
paste prompt and the login submission happen on each of the 3 attempts. -/
theorem C8_browser_opened_first_attempt_only (flags : Flags) (env : Env)
    (provider : Provider) (st : FlowState) (creds : Credentials) (ep r : String)
    (hm : provider.clientMethod = ClientMethod.browserToken)
    (hres : resolveStartFlowURL env provider.config.startFlowURL = Except.ok r)
    (hrej : ∀ a e c, ∃ m, env.login a e c = Except.error m) :
    loginCount (triggerFrom flags env provider 1 st creds ep).2.2 = 3 ∧
    browserOpenCount (triggerFrom flags env provider 1 st creds ep).2.2 = 1 ∧
    tokenPromptCount (triggerFrom flags env provider 1 st creds ep).2.2 = 3 ∧
    (triggerFrom flags env provider 1 st creds ep).2.2.head? =
      some (Event.browserOpenEv r) := by
  have hd1 := dispatch_browser_first flags env provider st creds ep r hm hres
  obtain ⟨m1, hl1⟩ :=
    hrej 1 ep { creds with token := env.promptInput 1 browserTokenPromptMsg }
  have hstep1 := trigger_step_loop flags env provider 1 st _ creds _ ep _ _ m1
    hd1 hl1 rfl (by omega)
  have hd2 := dispatch_browser_later flags env provider 2 { interactive := true }
    { creds with token := env.promptInput 1 browserTokenPromptMsg } ep hm (by omega)
  obtain ⟨m2, hl2⟩ :=
    hrej 2 ep { creds with token := env.promptInput 2 browserTokenPromptMsg }
  have hstep2 := trigger_step_loop flags env provider 2 { interactive := true } _
    { creds with token := env.promptInput 1 browserTokenPromptMsg } _ ep _ _ m2
    hd2 (by simpa using hl2) rfl (by omega)
  have hd3 := dispatch_browser_later flags env provider 3 { interactive := true }
    { creds with token := env.promptInput 2 browserTokenPromptMsg } ep hm (by omega)
  obtain ⟨m3, hl3⟩ :=
    hrej 3 ep { creds with token := env.promptInput 3 browserTokenPromptMsg }
  have hstep3 := trigger_step_ret flags env provider 3 { interactive := true } _
    { creds with token := env.promptInput 2 browserTokenPromptMsg } _ ep _ _ m3
    hd3 (by simpa using hl3) (Or.inr (by omega))
  rw [hstep1, hstep2, hstep3]
  rcases ho : env.openerOpen r with _ | e <;>
    simp [ho, loginCount, browserOpenCount, tokenPromptCount,
      isLoginCall, isBrowserOpen, isTokenPrompt, List.filter_append]

/-- C8 at a concrete input: a rejecting endpoint and a browser provider
whose root-relative start flow URL resolves against the cluster base
address. -/
theorem C8_browser_opened_first_attempt_only_witness :
    loginCount (triggerFrom flagsEmpty baseEnv provBrowser 1 { interactive := false }
      { uid := "", password := "", token := "" } "").2.2 = 3 ∧
    browserOpenCount (triggerFrom flagsEmpty baseEnv provBrowser 1 { interactive := false }
      { uid := "", password := "", token := "" } "").2.2 = 1 ∧
    tokenPromptCount (triggerFrom flagsEmpty baseEnv provBrowser 1 { interactive := false }
      { uid := "", password := "", token := "" } "").2.2 = 3 ∧
    (triggerFrom flagsEmpty baseEnv provBrowser 1 { interactive := false }
      { uid := "", password := "", token := "" } "").2.2.head? =
      some (Event.browserOpenEv "https://dcos.example.com/login") :=
  C8_browser_opened_first_attempt_only flagsEmpty baseEnv provBrowser
    { interactive := false } { uid := "", password := "", token := "" } ""
    "https://dcos.example.com/login" rfl rfl
    (fun _ _ _ => ⟨"invalid credentials", rfl⟩)

/-- C10: in every browser-token flow (URL resolution succeeding), every
successful method dispatch sets the interactivity flag to true before the
login submission of its attempt, so against an always-rejecting endpoint
the orchestrator makes exactly 3 attempts and returns the third failure,
never 1, even from a non-interactive starting state. -/
theorem C10_browser_flow_always_interactive (flags : Flags) (env : Env)
    (provider : Provider) (st : FlowState) (creds : Credentials) (ep r : String)
    (hm : provider.clientMethod = ClientMethod.browserToken)
    (hres : resolveStartFlowURL env provider.config.startFlowURL = Except.ok r)
    (hrej : ∀ a e c, ∃ m, env.login a e c = Except.error m) :
    (∀ a s c e p, (dispatchMethod flags env provider a s c e).1 = Except.ok p →
        (dispatchMethod flags env provider a s c e).2.1.interactive = true) ∧
    loginCount (triggerFrom flags env provider 1 st creds ep).2.2 = 3 ∧
    ∃ ep3 c3 m, env.login 3 ep3 c3 = Except.error m ∧
      Event.loginCallEv 3 ep3 c3 ∈ (triggerFrom flags env provider 1 st creds ep).2.2 ∧
      (triggerFrom flags env provider 1 st creds ep).1 = Except.error m := by
  have hsetsInteractive : ∀ a s c e,
      (dispatchMethod flags env provider a s c e).2.1.interactive = true := by
    intro a s c e
    by_cases h1 : a = 1
    · subst h1
      rw [dispatch_browser_first flags env provider s c e r hm hres]
    · rw [dispatch_browser_later flags env provider a s c e hm h1]
  have hdisp : ∀ a s c e,
      ∃ rr, (dispatchMethod flags env provider a s c e).1 = Except.ok rr := by
    intro a s c e
    by_cases h1 : a = 1
    · subst h1
      exact ⟨_, by rw [dispatch_browser_first flags env provider s c e r hm hres]⟩
    · exact ⟨_, by rw [dispatch_browser_later flags env provider a s c e hm h1]⟩
  exact ⟨fun a s c e p _ => hsetsInteractive a s c e,
    trigger_rejecting_three flags env provider st creds ep hdisp hsetsInteractive hrej⟩

/-- C10 at a concrete input: even with username and password flags fully
set (no value ever prompted besides the pasted token), a browser-token
flow against the rejecting endpoint makes 3 attempts. -/
theorem C10_browser_flow_always_interactive_witness :
    (∀ a s c e p, (dispatchMethod flagsStatic baseEnv provBrowser a s c e).1 = Except.ok p →
        (dispatchMethod flagsStatic baseEnv provBrowser a s c e).2.1.interactive = true) ∧
    loginCount (triggerFrom flagsStatic baseEnv provBrowser 1 { interactive := false }
      { uid := "", password := "", token := "" } "").2.2 = 3 ∧
    ∃ ep3 c3 m, baseEnv.login 3 ep3 c3 = Except.error m ∧
      Event.loginCallEv 3 ep3 c3 ∈ (triggerFrom flagsStatic baseEnv provBrowser 1
        { interactive := false } { uid := "", password := "", token := "" } "").2.2 ∧
      (triggerFrom flagsStatic baseEnv provBrowser 1 { interactive := false }
        { uid := "", password := "", token := "" } "").1 = Except.error m :=
  C10_browser_flow_always_interactive flagsStatic baseEnv provBrowser
    { interactive := false } { uid := "", password := "", token := "" } ""
    "https://dcos.example.com/login" rfl rfl
    (fun _ _ _ => ⟨"invalid credentials", rfl⟩)

end DcosLogin
